import Mathlib

/-!
Verification of the weather service in `app/main.py`.

The development shallowly embeds the Python source: JSON values become an
inductive type, Python exceptions become an inductive type of exception
classes, the single upstream HTTP exchange becomes a function from the
constructed request to an upstream outcome, and each handler becomes a pure
Lean function returning the rendered response.  Machine floats `lat`/`lon`
are never subject to arithmetic in the source (they are only interpolated
into the query parameters and into the f-string label), so they are embedded
as opaque values carrying their decimal string representation.
-/

/-- A Python float as the source uses it: an opaque value whose only observable
is its decimal string representation (`str(x)` / f-string interpolation).
The source performs no arithmetic on latitude/longitude. -/
structure PyFloat where
  repr : String
deriving DecidableEq

/-- Parsed JSON values, the possible results of `response.json()`.
Objects keep their key/value pairs in order; `json.loads` on duplicate keys
keeps the last binding, which the lookup function below respects. -/
inductive JValue where
  | null : JValue
  | bool (b : Bool) : JValue
  | num (q : ℚ) : JValue
  | str (s : String) : JValue
  | arr (xs : List JValue) : JValue
  | obj (kvs : List (String × JValue)) : JValue

/-- Association lookup where the last binding for a key wins, matching the
dictionary `json.loads` builds from a JSON object with duplicate keys. -/
def assocLast (kvs : List (String × JValue)) (key : String) : Option JValue :=
  match kvs with
  | [] => none
  | kv :: rest =>
    match assocLast rest key with
    | some v => some v
    | none => if kv.1 = key then some kv.2 else none

/-- Dictionary lookup `data[key]` when `data` is a JSON object; `none` when the
key is absent or the value is not an object. -/
def JValue.lookup (v : JValue) (key : String) : Option JValue :=
  match v with
  | .obj kvs => assocLast kvs key
  | _ => none

/-- Whether a JSON value is exactly the string `s`; this is Python `==`
between a `str` and a decoded JSON value (only another equal `str` compares
equal). -/
def JValue.isStrEq (v : JValue) (s : String) : Bool :=
  match v with
  | .str t => t = s
  | _ => false

/-- Substring test on character lists: Python `pat in s` for strings. -/
def charsHaveSub (pat s : List Char) : Bool :=
  if pat.isPrefixOf s then true
  else
    match s with
    | [] => false
    | _ :: t => charsHaveSub pat t

/-- Exception classes that can arise inside the `try` block of
`fetch_weather` (lines 66-78 of `app/main.py`):
`httpxError` covers the whole `httpx.HTTPError` hierarchy; `valueError`
covers `ValueError` (including `json.JSONDecodeError`); `keyError` and
`typeError` arise from dictionary/sequence access; `otherError` stands for
any other exception class raised during processing. -/
inductive HttpxError where
  | connectError : HttpxError
  | timeoutExpired : HttpxError
  | tlsError : HttpxError
  | statusError (code : ℕ) : HttpxError
  | otherTransport (msg : String) : HttpxError

inductive PyExc where
  | httpxError (e : HttpxError) : PyExc
  | valueError (msg : String) : PyExc
  | keyError (key : String) : PyExc
  | typeError (msg : String) : PyExc
  | otherError (msg : String) : PyExc

/-- Which exceptions the clause `except httpx.HTTPError` (line 79) catches. -/
def PyExc.isHttpxError (e : PyExc) : Bool :=
  match e with
  | .httpxError _ => true
  | _ => false

/-- Python membership `key in v` for a string key against a decoded JSON
value: key membership for dicts, element equality for lists, substring test
for strings, and a `TypeError` for the non-iterable scalars. -/
def pyContains (v : JValue) (key : String) : Except PyExc Bool :=
  match v with
  | .obj kvs => .ok (kvs.any (fun kv => kv.1 = key))
  | .arr xs => .ok (xs.any (fun x => x.isStrEq key))
  | .str s => .ok (charsHaveSub key.toList s.toList)
  | _ => .error (.typeError "argument of type is not iterable")

/-- Python subscript `v[key]` for a string key: dictionary lookup for dicts
(`KeyError` when absent), `TypeError` for every other decoded JSON value. -/
def pySubscript (v : JValue) (key : String) : Except PyExc JValue :=
  match v with
  | .obj kvs =>
    match assocLast kvs key with
    | some u => .ok u
    | none => .error (.keyError key)
  | .arr _ => .error (.typeError "list indices must be integers or slices, not str")
  | .str _ => .error (.typeError "string indices must be integers")
  | _ => .error (.typeError "object is not subscriptable")

/-- The dictionary `fetch_weather` returns on success (lines 74-78). -/
structure WeatherReading where
  temperature : JValue
  unit : JValue
  city_coords : String

/-- The `Settings` model of lines 14-20 (pydantic `BaseSettings`). -/
structure Settings where
  APP_NAME : String
  LATITUDE : PyFloat
  LONGITUDE : PyFloat
  WEATHER_API_URL : String
  HOST : String
  PORT : ℕ

/-- The default configuration of lines 15-20. -/
def defaultSettings : Settings :=
  { APP_NAME := "WeatherMonitor"
    LATITUDE := ⟨"55.7588"⟩
    LONGITUDE := ⟨"37.62817"⟩
    WEATHER_API_URL := "https://api.open-meteo.com/v1/forecast"
    HOST := "0.0.0.0"
    PORT := 8000 }

/-- The per-call timeout, in seconds, of the shared client: line 43,
`httpx.AsyncClient(timeout=10.0)`. -/
def clientTimeoutSeconds : ℚ := 10

/-- A value placed in the query-parameter dictionary of lines 58-64. -/
inductive ParamValue where
  | float (f : PyFloat) : ParamValue
  | str (s : String) : ParamValue
  | int (n : ℕ) : ParamValue
deriving DecidableEq

/-- The outbound request `http_client.get(settings.WEATHER_API_URL,
params=params)` issues (lines 58-67). -/
structure HttpRequest where
  method : String
  url : String
  queryParams : List (String × ParamValue)
deriving DecidableEq

/-- The request `fetch_weather` constructs: the `params` dictionary of
lines 58-64 sent by `GET` to `settings.WEATHER_API_URL` (line 67). -/
def buildRequest (s : Settings) (lat lon : PyFloat) : HttpRequest :=
  { method := "GET"
    url := s.WEATHER_API_URL
    queryParams :=
      [("latitude", .float lat),
       ("longitude", .float lon),
       ("current", .str "temperature_2m"),
       ("hourly", .str "temperature_2m"),
       ("forecast_days", .int 1)] }

/-- The body the upstream sent: either it decodes as JSON or `response.json()`
raises `json.JSONDecodeError` (a `ValueError`). -/
inductive UpstreamBody where
  | jsonBody (data : JValue) : UpstreamBody
  | invalidJson : UpstreamBody

/-- The outcome of the single `await http_client.get(...)` call (line 67):
either a transport-level `httpx` error (connection failure, timeout, TLS
failure, ...) or an HTTP response with a status code and a body. -/
inductive UpstreamOutcome where
  | transportError (e : HttpxError) : UpstreamOutcome
  | response (status : ℕ) (body : UpstreamBody) : UpstreamOutcome

/-- `response.raise_for_status()` (line 68): raises `httpx.HTTPStatusError`
(a subclass of `httpx.HTTPError`) exactly when the response is not a 2xx
success.  Since httpx 0.22 — the only era compatible with this source's
`pydantic_settings` and FastAPI-`lifespan` imports — `raise_for_status`
raises for every non-2xx status, and the client of line 43 leaves
`follow_redirects` at its default `False`, so 3xx responses surface here
too. -/
def raiseForStatus (status : ℕ) : Except PyExc Unit :=
  if 200 ≤ status ∧ status < 300 then .ok ()
  else .error (.httpxError (.statusError status))

/-- Lines 71-78: the shape check
`if "current" not in data or "temperature_2m" not in data["current"]`
(with Python short-circuit evaluation, so `data["current"]` is only
subscripted when the first membership test passed) followed by the
construction of the returned dictionary, in Python evaluation order. -/
def processData (lat lon : PyFloat) (data : JValue) : Except PyExc WeatherReading :=
  match pyContains data "current" with
  | .error e => .error e
  | .ok b1 =>
    if b1 = false then .error (.valueError "Invalid API response structure")
    else
      match pySubscript data "current" with
      | .error e => .error e
      | .ok cur =>
        match pyContains cur "temperature_2m" with
        | .error e => .error e
        | .ok b2 =>
          if b2 = false then .error (.valueError "Invalid API response structure")
          else
            match pySubscript data "current" with
            | .error e => .error e
            | .ok cur2 =>
              match pySubscript cur2 "temperature_2m" with
              | .error e => .error e
              | .ok t =>
                match pySubscript data "current_units" with
                | .error e => .error e
                | .ok units =>
                  match pySubscript units "temperature_2m" with
                  | .error e => .error e
                  | .ok u => .ok ⟨t, u, lat.repr ++ ", " ++ lon.repr⟩

/-- The body of the `try` block (lines 66-78), given the outcome of the one
upstream call: transport errors propagate as `httpx` exceptions,
`raise_for_status` rejects statuses ≥ 400, an undecodable body raises
`json.JSONDecodeError` (a `ValueError`), and a decoded body is processed by
`processData`. -/
def fetchTryBody (lat lon : PyFloat) (o : UpstreamOutcome) : Except PyExc WeatherReading :=
  match o with
  | .transportError e => .error (.httpxError e)
  | .response status body =>
    match raiseForStatus status with
    | .error e => .error e
    | .ok _ =>
      match body with
      | .invalidJson => .error (.valueError "Expecting value: line 1 column 1")
      | .jsonBody data => processData lat lon data

/-- `fastapi.HTTPException` as raised on lines 81 and 84. -/
structure HTTPException where
  status_code : ℕ
  detail : String
deriving DecidableEq

/-- The two `except` clauses of lines 79-84: `httpx.HTTPError` becomes the
503 service-unavailable exception, everything else falls to
`except Exception` and becomes the 500 internal-error exception. -/
def toHTTPException (e : PyExc) : HTTPException :=
  if e.isHttpxError then ⟨503, "Weather service unavailable"⟩
  else ⟨500, "Internal Server Error"⟩

/-- `fetch_weather(lat, lon)` (lines 54-84) run against an upstream modelled
as a function from the issued request to its outcome.  The second component
records the list of upstream requests issued during the call: the body is
straight-line code containing exactly one `http_client.get`, so the list is
the singleton of the constructed request. -/
def fetch_weather_exec (s : Settings) (upstream : HttpRequest → UpstreamOutcome)
    (lat lon : PyFloat) : Except HTTPException WeatherReading × List HttpRequest :=
  let req := buildRequest s lat lon
  let result :=
    match fetchTryBody lat lon (upstream req) with
    | .ok w => .ok w
    | .error e => .error (toHTTPException e)
  (result, [req])

/-- The value/exception `fetch_weather` produces. -/
def fetch_weather (s : Settings) (upstream : HttpRequest → UpstreamOutcome)
    (lat lon : PyFloat) : Except HTTPException WeatherReading :=
  (fetch_weather_exec s upstream lat lon).1

/-- One digit character of a decimal digit. -/
def digitCh (d : ℕ) : Char := Nat.digitChar (d % 10)

/-- The four fractional digits of `n % 10000`, most significant first. -/
def fourDigits (n : ℕ) : String :=
  String.mk [digitCh (n / 1000), digitCh (n / 100), digitCh (n / 10), digitCh n]

/-- The Python format `f"{x:.4f}"` (line 105) on the elapsed time modelled as
a rational: the magnitude is scaled by 10000 and rounded to the nearest
integer (`(2 * |num| * 10000 + den) / (2 * den)` is `⌊|q| * 10000 + 1/2⌋` in
natural-number arithmetic), then printed as an integer part, a point, and
exactly four fractional digits. -/
def formatFixed4 (q : ℚ) : String :=
  let sign : String := if q < 0 then "-" else ""
  let n : ℕ := (2 * q.num.natAbs * 10000 + q.den) / (2 * q.den)
  sign ++ toString (n / 10000) ++ "." ++ fourDigits (n % 10000)

/-- A string rendered with exactly four decimal places: everything after its
final decimal point is exactly four characters, none of them a point. -/
def hasExactly4Decimals (s : String) : Prop :=
  ∃ a b : String, s = a ++ "." ++ b ∧ b.length = 4 ∧ '.' ∉ b.toList

/-- The template context `read_root` renders (lines 98-113): the success
branch fills temperature, unit, location and render time and returns the
default status 200; the failure branch fills only the error message and
returns the exception's status code. -/
structure TemplateResponse where
  template : String
  temperature : Option JValue
  unit : Option JValue
  location : Option String
  render_time : Option String
  error : Option String
  status_code : ℕ

/-- The root handler (lines 88-113).  `t0` is the wall-clock reading taken at
line 93 when the request arrives and `t1` the reading taken at line 96 when
the fetch completes, so the rendered elapsed time is `t1 - t0`. -/
def read_root (s : Settings) (upstream : HttpRequest → UpstreamOutcome)
    (t0 t1 : ℚ) : TemplateResponse :=
  match fetch_weather s upstream s.LATITUDE s.LONGITUDE with
  | .ok w =>
    { template := "index.html"
      temperature := some w.temperature
      unit := some w.unit
      location := some w.city_coords
      render_time := some (formatFixed4 (t1 - t0))
      error := none
      status_code := 200 }
  | .error e =>
    { template := "index.html"
      temperature := none
      unit := none
      location := none
      render_time := none
      error := some e.detail
      status_code := e.status_code }

/-- A JSON response from a handler: its status code and its object body. -/
structure JSONResponse where
  status_code : ℕ
  body : List (String × JValue)

/-- The health handler (lines 115-120).  It is modelled as a function of the
current upstream state to express that its result is independent of it; its
body (lines 116-120) contains no `http_client` call, so the list of upstream
requests it issues is empty, and it returns the fixed JSON object with
FastAPI's default status 200. -/
def health_check (s : Settings) (_upstreamState : HttpRequest → UpstreamOutcome) :
    JSONResponse × List HttpRequest :=
  (⟨200, [("status", .str "ok"), ("service", .str s.APP_NAME)]⟩, [])

/-- The required response shape of §3 of the spec, phrased over the embedded
JSON: `current` is present with a `temperature_2m` member, and
`current_units` is present with a `temperature_2m` member; used to state the
data-shape claims. -/
def hasRequiredShape (data : JValue) : Bool :=
  match data.lookup "current" with
  | none => false
  | some cur =>
    match cur.lookup "temperature_2m" with
    | none => false
    | some _ =>
      match data.lookup "current_units" with
      | none => false
      | some units => (units.lookup "temperature_2m").isSome

/-! ### Helper lemmas -/

theorem assocLast_some_any (kvs : List (String × JValue)) (key : String) (v : JValue)
    (h : assocLast kvs key = some v) : kvs.any (fun kv => kv.1 = key) = true := by
  induction kvs with
  | nil => simp [assocLast] at h
  | cons kv rest ih =>
    rw [assocLast] at h
    simp only [List.any_cons, Bool.or_eq_true]
    cases hr : assocLast rest key with
    | some w =>
      rw [hr] at h
      obtain rfl : w = v := by injection h
      exact Or.inr (ih hr)
    | none =>
      rw [hr] at h
      by_cases hk : kv.1 = key
      · exact Or.inl (by simp [hk])
      · simp [hk] at h

theorem lookup_some_obj (v : JValue) (key : String) (u : JValue)
    (h : v.lookup key = some u) : ∃ kvs, v = .obj kvs ∧ assocLast kvs key = some u := by
  cases v with
  | obj kvs => exact ⟨kvs, rfl, by simpa [JValue.lookup] using h⟩
  | null => simp [JValue.lookup] at h
  | bool b => simp [JValue.lookup] at h
  | num q => simp [JValue.lookup] at h
  | str s => simp [JValue.lookup] at h
  | arr xs => simp [JValue.lookup] at h

theorem pySubscript_ok_iff (v : JValue) (key : String) (u : JValue) :
    pySubscript v key = .ok u ↔ v.lookup key = some u := by
  cases v with
  | obj kvs =>
    simp only [pySubscript, JValue.lookup]
    cases assocLast kvs key <;> simp
  | null => simp [pySubscript, JValue.lookup]
  | bool b => simp [pySubscript, JValue.lookup]
  | num q => simp [pySubscript, JValue.lookup]
  | str s => simp [pySubscript, JValue.lookup]
  | arr xs => simp [pySubscript, JValue.lookup]

theorem pySubscript_error_not_httpx (v : JValue) (key : String) (e : PyExc)
    (h : pySubscript v key = .error e) : e.isHttpxError = false := by
  unfold pySubscript at h
  repeat' split at h
  all_goals first
    | (injection h with h2; subst h2; rfl)
    | simp_all

theorem pyContains_error_not_httpx (v : JValue) (key : String) (e : PyExc)
    (h : pyContains v key = .error e) : e.isHttpxError = false := by
  unfold pyContains at h
  repeat' split at h
  all_goals first
    | (injection h with h2; subst h2; rfl)
    | simp_all

/-- Processing a decoded JSON body either succeeds, in which case the body
had the required shape, or raises an exception that is not an `httpx` error
(only `ValueError`, `KeyError` and `TypeError` can arise on lines 71-78). -/
theorem processData_classify (lat lon : PyFloat) (data : JValue) :
    (∃ w, processData lat lon data = .ok w ∧ hasRequiredShape data = true) ∨
    (∃ e, processData lat lon data = .error e ∧ e.isHttpxError = false) := by
  unfold processData
  cases h1 : pyContains data "current" with
  | error e1 => exact Or.inr ⟨e1, rfl, pyContains_error_not_httpx _ _ _ h1⟩
  | ok b1 =>
    dsimp only
    by_cases hb1 : b1 = false
    · exact Or.inr ⟨.valueError "Invalid API response structure",
        by rw [if_pos hb1], rfl⟩
    · rw [if_neg hb1]
      cases h2 : pySubscript data "current" with
      | error e2 => exact Or.inr ⟨e2, rfl, pySubscript_error_not_httpx _ _ _ h2⟩
      | ok cur =>
        dsimp only
        cases h3 : pyContains cur "temperature_2m" with
        | error e3 => exact Or.inr ⟨e3, rfl, pyContains_error_not_httpx _ _ _ h3⟩
        | ok b2 =>
          dsimp only
          by_cases hb2 : b2 = false
          · exact Or.inr ⟨.valueError "Invalid API response structure",
              by rw [if_pos hb2], rfl⟩
          · rw [if_neg hb2]
            cases h5 : pySubscript cur "temperature_2m" with
            | error e5 => exact Or.inr ⟨e5, rfl, pySubscript_error_not_httpx _ _ _ h5⟩
            | ok t =>
              dsimp only
              cases h6 : pySubscript data "current_units" with
              | error e6 =>
                exact Or.inr ⟨e6, rfl, pySubscript_error_not_httpx _ _ _ h6⟩
              | ok units =>
                dsimp only
                cases h7 : pySubscript units "temperature_2m" with
                | error e7 =>
                  exact Or.inr ⟨e7, rfl, pySubscript_error_not_httpx _ _ _ h7⟩
                | ok u =>
                  dsimp only
                  refine Or.inl ⟨⟨t, u, lat.repr ++ ", " ++ lon.repr⟩, rfl, ?_⟩
                  have l2 := (pySubscript_ok_iff _ _ _).mp h2
                  have l5 := (pySubscript_ok_iff _ _ _).mp h5
                  have l6 := (pySubscript_ok_iff _ _ _).mp h6
                  have l7 := (pySubscript_ok_iff _ _ _).mp h7
                  simp [hasRequiredShape, l2, l5, l6, l7]

/-- When the decoded body is an object whose `current` member has a
`temperature_2m` member and whose `current_units` member has a
`temperature_2m` member, processing returns those two values together with
the f-string label built from the two coordinates. -/
theorem processData_success (lat lon : PyFloat) (data cur units T U : JValue)
    (hc : data.lookup "current" = some cur)
    (ht : cur.lookup "temperature_2m" = some T)
    (hu : data.lookup "current_units" = some units)
    (huu : units.lookup "temperature_2m" = some U) :
    processData lat lon data = .ok ⟨T, U, lat.repr ++ ", " ++ lon.repr⟩ := by
  obtain ⟨kvs, rfl, hak⟩ := lookup_some_obj _ _ _ hc
  obtain ⟨ckvs, rfl, hakc⟩ := lookup_some_obj _ _ _ ht
  have hany : kvs.any (fun kv => kv.1 = "current") = true :=
    assocLast_some_any _ _ _ hak
  have hanyc : ckvs.any (fun kv => kv.1 = "temperature_2m") = true :=
    assocLast_some_any _ _ _ hakc
  obtain ⟨ukvs, rfl, haku⟩ := lookup_some_obj _ _ _ huu
  have hu2 : assocLast kvs "current_units" = some (JValue.obj ukvs) := by
    simpa [JValue.lookup] using hu
  simp [processData, pyContains, pySubscript, hak, hakc, hany, hanyc, hu2, haku]

theorem digitCh_ne_dot (d : ℕ) : digitCh d ≠ '.' := by
  have h : d % 10 < 10 := Nat.mod_lt _ (by norm_num)
  unfold digitCh
  set m := d % 10 with hm
  interval_cases m <;> decide

theorem fourDigits_length (n : ℕ) : (fourDigits n).length = 4 := rfl

theorem fourDigits_no_dot (n : ℕ) : '.' ∉ (fourDigits n).toList := by
  intro hmem
  have h4 : '.' ∈ [digitCh (n / 1000), digitCh (n / 100), digitCh (n / 10), digitCh n] := hmem
  simp only [List.mem_cons, List.not_mem_nil, or_false] at h4
  rcases h4 with h | h | h | h <;> exact digitCh_ne_dot _ h.symm

/-- Whatever rational the elapsed time is, the `:.4f` format renders it with
a decimal point followed by exactly four digits. -/
theorem formatFixed4_four_decimals (q : ℚ) : hasExactly4Decimals (formatFixed4 q) := by
  refine ⟨(if q < 0 then "-" else "") ++
      toString (((2 * q.num.natAbs * 10000 + q.den) / (2 * q.den)) / 10000),
    fourDigits (((2 * q.num.natAbs * 10000 + q.den) / (2 * q.den)) % 10000),
    ?_, ?_, ?_⟩
  · rfl
  · exact fourDigits_length _
  · exact fourDigits_no_dot _

/-! ### Claims -/

/-- C1 (amended): for every latitude and longitude, if the upstream response
is a 2xx success (`200 ≤ status < 300`), its body parses as JSON, and the
JSON contains `current.temperature_2m = T` and
`current_units.temperature_2m = U`, then `fetch_weather(lat, lon)` returns a
reading whose temperature is `T`, whose unit is `U`, and whose coordinates
label is the string `"<lat>, <lon>"` built from the unrounded decimal
representations of `lat` and `lon`.  The claim's original `status < 400`
bound is refuted below: `raise_for_status` raises on every non-2xx status,
so a 3xx response fails with 503 instead. -/
theorem claim_C1_success_reading
    (s : Settings) (upstream : HttpRequest → UpstreamOutcome) (lat lon : PyFloat)
    (status : ℕ) (data cur units T U : JValue)
    (hup : upstream (buildRequest s lat lon) = .response status (.jsonBody data))
    (h200 : 200 ≤ status) (h300 : status < 300)
    (hc : data.lookup "current" = some cur)
    (ht : cur.lookup "temperature_2m" = some T)
    (hu : data.lookup "current_units" = some units)
    (huu : units.lookup "temperature_2m" = some U) :
    fetch_weather s upstream lat lon =
      .ok ⟨T, U, lat.repr ++ ", " ++ lon.repr⟩ := by
  have hpd := processData_success lat lon data cur units T U hc ht hu huu
  simp [fetch_weather, fetch_weather_exec, fetchTryBody, hup, raiseForStatus,
    h200, h300, hpd]

/-- Witness for C1 at the spec's end-to-end scenario: latitude 55.7588,
longitude 37.62817, temperature 21.3, unit `°C`. -/
theorem claim_C1_success_reading_witness :
    fetch_weather defaultSettings
      (fun _ => .response 200 (.jsonBody (JValue.obj
        [("current", .obj [("temperature_2m", .num (213 / 10))]),
         ("current_units", .obj [("temperature_2m", .str "°C")])])))
      defaultSettings.LATITUDE defaultSettings.LONGITUDE =
      .ok ⟨.num (213 / 10), .str "°C", "55.7588, 37.62817"⟩ := by
  have h := claim_C1_success_reading defaultSettings
    (fun _ => .response 200 (.jsonBody (JValue.obj
      [("current", .obj [("temperature_2m", .num (213 / 10))]),
       ("current_units", .obj [("temperature_2m", .str "°C")])])))
    defaultSettings.LATITUDE defaultSettings.LONGITUDE 200 _ _ _ _ _
    rfl (by norm_num) (by norm_num) rfl rfl rfl rfl
  simpa [defaultSettings] using h

/-- Counterexample to C1 as frozen: the redirect status 302 satisfies the
claim's `status < 400` bound and the body carries both required fields, yet
`fetch_weather` returns the 503 error rather than the success reading,
because `raise_for_status` raises on every non-2xx response. -/
theorem claim_C1_redirect_counterexample :
    (302 : ℕ) < 400 ∧
    fetch_weather defaultSettings
      (fun _ => .response 302 (.jsonBody (JValue.obj
        [("current", .obj [("temperature_2m", .num (213 / 10))]),
         ("current_units", .obj [("temperature_2m", .str "°C")])])))
      defaultSettings.LATITUDE defaultSettings.LONGITUDE =
      .error ⟨503, "Weather service unavailable"⟩ ∧
    fetch_weather defaultSettings
      (fun _ => .response 302 (.jsonBody (JValue.obj
        [("current", .obj [("temperature_2m", .num (213 / 10))]),
         ("current_units", .obj [("temperature_2m", .str "°C")])])))
      defaultSettings.LATITUDE defaultSettings.LONGITUDE ≠
      .ok ⟨.num (213 / 10), .str "°C", "55.7588, 37.62817"⟩ := by
  refine ⟨by norm_num, rfl, ?_⟩
  intro hcon
  have hcontra : (Except.error ⟨503, "Weather service unavailable"⟩ :
      Except HTTPException WeatherReading) =
      .ok ⟨.num (213 / 10), .str "°C", "55.7588, 37.62817"⟩ := by
    rw [← hcon]
    rfl
  exact Except.noConfusion hcontra

/-- C2: every transport-level failure (connection error, timeout, TLS error)
and every HTTP response with status ≥ 400 makes `fetch_weather` fail with the
`ServiceUnavailable` exception mapped to HTTP 503 — never with the 500
`InternalError`. -/
theorem claim_C2_unreachable_upstream_503
    (s : Settings) (upstream : HttpRequest → UpstreamOutcome) (lat lon : PyFloat)
    (h : (∃ e, upstream (buildRequest s lat lon) = .transportError e) ∨
         (∃ status body, upstream (buildRequest s lat lon) = .response status body ∧
           400 ≤ status)) :
    fetch_weather s upstream lat lon = .error ⟨503, "Weather service unavailable"⟩ := by
  rcases h with ⟨e, he⟩ | ⟨status, body, hr, hs⟩
  · simp [fetch_weather, fetch_weather_exec, fetchTryBody, he, toHTTPException,
      PyExc.isHttpxError]
  · have hno : ¬(200 ≤ status ∧ status < 300) := by omega
    simp [fetch_weather, fetch_weather_exec, fetchTryBody, hr, raiseForStatus, hno,
      toHTTPException, PyExc.isHttpxError]

/-- Witness for C2 at a connection error. -/
theorem claim_C2_unreachable_upstream_503_witness :
    fetch_weather defaultSettings (fun _ => .transportError .connectError)
      defaultSettings.LATITUDE defaultSettings.LONGITUDE =
      .error ⟨503, "Weather service unavailable"⟩ :=
  claim_C2_unreachable_upstream_503 _ _ _ _ (Or.inl ⟨.connectError, rfl⟩)

/-- C3 (amended): a 2xx response (`200 ≤ status < 300`) that parses as JSON
but lacks `current`, `current.temperature_2m`, or
`current_units.temperature_2m` makes `fetch_weather` fail with the
`InternalError` exception mapped to HTTP 500, not 503.  A non-2xx response —
including a 3xx, refuted below — fails with 503 before the body is ever
processed, because `raise_for_status` raises on every non-2xx status. -/
theorem claim_C3_data_shape_500
    (s : Settings) (upstream : HttpRequest → UpstreamOutcome) (lat lon : PyFloat)
    (status : ℕ) (data : JValue)
    (hup : upstream (buildRequest s lat lon) = .response status (.jsonBody data))
    (h200 : 200 ≤ status) (h300 : status < 300)
    (hshape : hasRequiredShape data = false) :
    fetch_weather s upstream lat lon = .error ⟨500, "Internal Server Error"⟩ := by
  rcases processData_classify lat lon data with ⟨w, hw, hsh⟩ | ⟨e, he, hne⟩
  · simp [hsh] at hshape
  · simp [fetch_weather, fetch_weather_exec, fetchTryBody, hup, raiseForStatus,
      h200, h300, he, toHTTPException, hne]

/-- Witness for C3 at a well-formed JSON object missing the `current` key. -/
theorem claim_C3_data_shape_500_witness :
    fetch_weather defaultSettings (fun _ => .response 200 (.jsonBody (.obj [])))
      defaultSettings.LATITUDE defaultSettings.LONGITUDE =
      .error ⟨500, "Internal Server Error"⟩ :=
  claim_C3_data_shape_500 _ _ _ _ 200 (.obj []) rfl (by norm_num) (by norm_num) rfl

/-- Counterexample to C3 as frozen: a 302 response whose JSON body lacks the
`current` key makes `fetch_weather` fail with 503 — the status error raised
by `raise_for_status` on a non-2xx response comes before any body
processing — and not with the 500 the claim asserts. -/
theorem claim_C3_redirect_counterexample :
    hasRequiredShape (JValue.obj []) = false ∧
    fetch_weather defaultSettings
      (fun _ => .response 302 (.jsonBody (.obj [])))
      defaultSettings.LATITUDE defaultSettings.LONGITUDE =
      .error ⟨503, "Weather service unavailable"⟩ ∧
    fetch_weather defaultSettings
      (fun _ => .response 302 (.jsonBody (.obj [])))
      defaultSettings.LATITUDE defaultSettings.LONGITUDE ≠
      .error ⟨500, "Internal Server Error"⟩ := by
  refine ⟨rfl, rfl, ?_⟩
  intro hcon
  have hcontra : (Except.error ⟨503, "Weather service unavailable"⟩ :
      Except HTTPException WeatherReading) = .error ⟨500, "Internal Server Error"⟩ := by
    rw [← hcon]
    rfl
  injection hcontra with h2
  exact absurd h2 (by decide)

/-- C4: the shared client carries the fixed 10-second per-call timeout of
line 43; a timeout expiry is an `httpx` transport failure and so fails with
the 503 `ServiceUnavailable` exception; and one invocation of
`fetch_weather` issues exactly one upstream request (its straight-line body
contains a single `http_client.get`, recorded by `fetch_weather_exec`). -/
theorem claim_C4_timeout_single_attempt :
    clientTimeoutSeconds = 10 ∧
    (∀ (s : Settings) (upstream : HttpRequest → UpstreamOutcome) (lat lon : PyFloat),
      upstream (buildRequest s lat lon) = .transportError .timeoutExpired →
      fetch_weather s upstream lat lon =
        .error ⟨503, "Weather service unavailable"⟩) ∧
    (∀ (s : Settings) (upstream : HttpRequest → UpstreamOutcome) (lat lon : PyFloat),
      (fetch_weather_exec s upstream lat lon).2 = [buildRequest s lat lon]) := by
  refine ⟨rfl, ?_, ?_⟩
  · intro s upstream lat lon h
    simp [fetch_weather, fetch_weather_exec, fetchTryBody, h, toHTTPException,
      PyExc.isHttpxError]
  · intro s upstream lat lon
    rfl

/-- Witness for C4 at a timed-out upstream call. -/
theorem claim_C4_timeout_single_attempt_witness :
    fetch_weather defaultSettings (fun _ => .transportError .timeoutExpired)
        defaultSettings.LATITUDE defaultSettings.LONGITUDE =
      .error ⟨503, "Weather service unavailable"⟩ ∧
    (fetch_weather_exec defaultSettings (fun _ => .transportError .timeoutExpired)
        defaultSettings.LATITUDE defaultSettings.LONGITUDE).2 =
      [buildRequest defaultSettings defaultSettings.LATITUDE defaultSettings.LONGITUDE] :=
  ⟨claim_C4_timeout_single_attempt.2.1 _ _ _ _ rfl,
   claim_C4_timeout_single_attempt.2.2 _ _ _ _⟩

/-- C5: whatever the upstream state, a GET to the health path returns
HTTP 200 with exactly the JSON body
`{"status": "ok", "service": <application name>}` (equal to
`"WeatherMonitor"` under the default configuration), issues no upstream
request, and its result does not depend on the upstream at all (it has no
failure mode). -/
theorem claim_C5_health_fixed
    (s : Settings) (u u2 : HttpRequest → UpstreamOutcome) :
    (health_check s u).1.status_code = 200 ∧
    (health_check s u).1.body =
      [("status", .str "ok"), ("service", .str s.APP_NAME)] ∧
    (health_check s u).2 = [] ∧
    health_check s u = health_check s u2 ∧
    (health_check defaultSettings u).1.body =
      [("status", .str "ok"), ("service", .str "WeatherMonitor")] :=
  ⟨rfl, rfl, rfl, rfl, rfl⟩

/-- C6: whenever the fetch fails, the root handler renders the error view
carrying that failure's message with the failure's own status code, and the
message is one of the two generic constants (503 with
"Weather service unavailable" or 500 with "Internal Server Error"), never
the underlying cause. -/
theorem claim_C6_error_rendering
    (s : Settings) (upstream : HttpRequest → UpstreamOutcome) (t0 t1 : ℚ)
    (e : HTTPException)
    (h : fetch_weather s upstream s.LATITUDE s.LONGITUDE = .error e) :
    read_root s upstream t0 t1 =
      { template := "index.html", temperature := none, unit := none,
        location := none, render_time := none, error := some e.detail,
        status_code := e.status_code } ∧
    ((e.status_code = 503 ∧ e.detail = "Weather service unavailable") ∨
     (e.status_code = 500 ∧ e.detail = "Internal Server Error")) := by
  refine ⟨by simp [read_root, h], ?_⟩
  revert h
  unfold fetch_weather fetch_weather_exec
  dsimp only
  cases hb : fetchTryBody s.LATITUDE s.LONGITUDE
      (upstream (buildRequest s s.LATITUDE s.LONGITUDE)) with
  | ok w =>
    intro h
    exact absurd h (by simp)
  | error e2 =>
    intro h
    obtain rfl : toHTTPException e2 = e := by injection h
    unfold toHTTPException
    cases he2 : e2.isHttpxError
    · exact Or.inr ⟨by simp, by simp⟩
    · exact Or.inl ⟨by simp, by simp⟩

/-- Witness for C6 at a connection error: the rendered page carries the 503
generic message. -/
theorem claim_C6_error_rendering_witness :
    read_root defaultSettings (fun _ => .transportError .connectError) 0 1 =
      { template := "index.html", temperature := none, unit := none,
        location := none, render_time := none,
        error := some "Weather service unavailable", status_code := 503 } :=
  (claim_C6_error_rendering defaultSettings (fun _ => .transportError .connectError)
    0 1 ⟨503, "Weather service unavailable"⟩ rfl).1

/-- C7: every exception escaping `fetch_weather` is one of exactly the two
`HTTPException` kinds — 503 `ServiceUnavailable` or 500 `InternalError` —
and any exception that is not an `httpx` error (in particular any unexpected
exception during processing) is classified by the `except Exception` clause
as the 500 `InternalError` rather than propagating unclassified. -/
theorem claim_C7_two_error_kinds
    (s : Settings) (upstream : HttpRequest → UpstreamOutcome) (lat lon : PyFloat) :
    ((∃ w, fetch_weather s upstream lat lon = .ok w) ∨
     fetch_weather s upstream lat lon = .error ⟨503, "Weather service unavailable"⟩ ∨
     fetch_weather s upstream lat lon = .error ⟨500, "Internal Server Error"⟩) ∧
    (∀ e : PyExc, e.isHttpxError = false →
      toHTTPException e = ⟨500, "Internal Server Error"⟩) := by
  constructor
  · unfold fetch_weather fetch_weather_exec
    dsimp only
    cases hb : fetchTryBody lat lon (upstream (buildRequest s lat lon)) with
    | ok w => exact Or.inl ⟨w, rfl⟩
    | error e2 =>
      unfold toHTTPException
      cases he2 : e2.isHttpxError
      · exact Or.inr (Or.inr (by simp [he2]))
      · exact Or.inr (Or.inl (by simp [he2]))
  · intro e he
    simp [toHTTPException, he]

/-- Witness for C7: an arbitrary processing exception is classified as the
500 internal error. -/
theorem claim_C7_two_error_kinds_witness :
    toHTTPException (.otherError "boom") = ⟨500, "Internal Server Error"⟩ :=
  (claim_C7_two_error_kinds defaultSettings (fun _ => .transportError .connectError)
    defaultSettings.LATITUDE defaultSettings.LONGITUDE).2 (.otherError "boom") rfl

/-- C8: on every successful fetch, the root handler renders the temperature,
unit and location label of the reading together with the elapsed wall-clock
time `t1 - t0` (request arrival to fetch completion) formatted with exactly
4 decimal places. -/
theorem claim_C8_render_time_four_decimals
    (s : Settings) (upstream : HttpRequest → UpstreamOutcome) (t0 t1 : ℚ)
    (w : WeatherReading)
    (h : fetch_weather s upstream s.LATITUDE s.LONGITUDE = .ok w) :
    read_root s upstream t0 t1 =
      { template := "index.html", temperature := some w.temperature,
        unit := some w.unit, location := some w.city_coords,
        render_time := some (formatFixed4 (t1 - t0)), error := none,
        status_code := 200 } ∧
    hasExactly4Decimals (formatFixed4 (t1 - t0)) :=
  ⟨by simp [read_root, h], formatFixed4_four_decimals _⟩

/-- Witness for C8: a successful fetch that took half a second renders
"0.5000". -/
theorem claim_C8_render_time_four_decimals_witness :
    read_root defaultSettings
      (fun _ => .response 200 (.jsonBody (JValue.obj
        [("current", .obj [("temperature_2m", .num (213 / 10))]),
         ("current_units", .obj [("temperature_2m", .str "°C")])])))
      0 (1 / 2) =
      { template := "index.html", temperature := some (.num (213 / 10)),
        unit := some (.str "°C"), location := some "55.7588, 37.62817",
        render_time := some "0.5000", error := none, status_code := 200 } := by
  have h := (claim_C8_render_time_four_decimals defaultSettings
    (fun _ => .response 200 (.jsonBody (JValue.obj
      [("current", .obj [("temperature_2m", .num (213 / 10))]),
       ("current_units", .obj [("temperature_2m", .str "°C")])])))
    0 (1 / 2)
    ⟨.num (213 / 10), .str "°C", "55.7588, 37.62817"⟩ (by rfl)).1
  have hfmt : formatFixed4 ((1 : ℚ) / 2 - 0) = "0.5000" := by
    have hq : ((1 : ℚ) / 2 - 0) = 1 / 2 := by norm_num
    have hnum : ((1 : ℚ) / 2).num = 1 := by norm_num
    have hden : ((1 : ℚ) / 2).den = 2 := by norm_num
    have hneg : ¬((1 : ℚ) / 2 < 0) := by norm_num
    rw [hq]
    simp only [formatFixed4]
    rw [hnum, hden, if_neg hneg]
    rfl
  rw [hfmt] at h
  exact h

/-- C9: the outbound request of one `fetch_weather(lat, lon)` invocation is
a single GET to the configured upstream URL carrying exactly the query
parameters `latitude=lat`, `longitude=lon`, `current=temperature_2m`,
`hourly=temperature_2m`, `forecast_days=1`. -/
theorem claim_C9_request_shape (s : Settings) (lat lon : PyFloat)
    (upstream : HttpRequest → UpstreamOutcome) :
    buildRequest s lat lon =
      { method := "GET", url := s.WEATHER_API_URL,
        queryParams :=
          [("latitude", .float lat), ("longitude", .float lon),
           ("current", .str "temperature_2m"), ("hourly", .str "temperature_2m"),
           ("forecast_days", .int 1)] } ∧
    (fetch_weather_exec s upstream lat lon).2 = [buildRequest s lat lon] :=
  ⟨rfl, rfl⟩

/-- C10 (amended): the extracted values are not type-checked or coerced:
whatever JSON values sit at `current.temperature_2m` and
`current_units.temperature_2m` of a 2xx response (`200 ≤ status < 300`) — a
string, boolean or null temperature, a non-string unit — the fetch succeeds
and returns them unchanged.  On a non-2xx response, including a 3xx (refuted
below), the fetch fails with 503 before extraction. -/
theorem claim_C10_no_type_validation
    (s : Settings) (upstream : HttpRequest → UpstreamOutcome) (lat lon : PyFloat)
    (status : ℕ) (v u : JValue)
    (h200 : 200 ≤ status) (h300 : status < 300)
    (hup : upstream (buildRequest s lat lon) = .response status (.jsonBody
      (.obj [("current", .obj [("temperature_2m", v)]),
             ("current_units", .obj [("temperature_2m", u)])]))) :
    fetch_weather s upstream lat lon = .ok ⟨v, u, lat.repr ++ ", " ++ lon.repr⟩ := by
  have hpd := processData_success lat lon
    (.obj [("current", .obj [("temperature_2m", v)]),
           ("current_units", .obj [("temperature_2m", u)])])
    (.obj [("temperature_2m", v)]) (.obj [("temperature_2m", u)]) v u
    rfl rfl rfl rfl
  simp [fetch_weather, fetch_weather_exec, fetchTryBody, hup, raiseForStatus,
    h200, h300, hpd]

/-- Witness for C10: a string temperature and a numeric unit are returned
unchanged. -/
theorem claim_C10_no_type_validation_witness :
    fetch_weather defaultSettings
      (fun _ => .response 200 (.jsonBody (JValue.obj
        [("current", .obj [("temperature_2m", .str "very hot")]),
         ("current_units", .obj [("temperature_2m", .num 5)])])))
      defaultSettings.LATITUDE defaultSettings.LONGITUDE =
      .ok ⟨.str "very hot", .num 5, "55.7588, 37.62817"⟩ := by
  have h := claim_C10_no_type_validation defaultSettings
    (fun _ => .response 200 (.jsonBody (JValue.obj
      [("current", .obj [("temperature_2m", .str "very hot")]),
       ("current_units", .obj [("temperature_2m", .num 5)])])))
    defaultSettings.LATITUDE defaultSettings.LONGITUDE 200 (.str "very hot") (.num 5)
    (by norm_num) (by norm_num) rfl
  simpa [defaultSettings] using h

/-- Counterexample to C10 as frozen: at the redirect status 302 — inside the
claim's `status < 400` region — a string temperature is not returned
unchanged; the fetch fails with 503 because `raise_for_status` raises on
every non-2xx response. -/
theorem claim_C10_redirect_counterexample :
    (302 : ℕ) < 400 ∧
    fetch_weather defaultSettings
      (fun _ => .response 302 (.jsonBody (JValue.obj
        [("current", .obj [("temperature_2m", .str "very cold")]),
         ("current_units", .obj [("temperature_2m", .num 7)])])))
      defaultSettings.LATITUDE defaultSettings.LONGITUDE =
      .error ⟨503, "Weather service unavailable"⟩ ∧
    fetch_weather defaultSettings
      (fun _ => .response 302 (.jsonBody (JValue.obj
        [("current", .obj [("temperature_2m", .str "very cold")]),
         ("current_units", .obj [("temperature_2m", .num 7)])])))
      defaultSettings.LATITUDE defaultSettings.LONGITUDE ≠
      .ok ⟨.str "very cold", .num 7, "55.7588, 37.62817"⟩ := by
  refine ⟨by norm_num, rfl, ?_⟩
  intro hcon
  have hcontra : (Except.error ⟨503, "Weather service unavailable"⟩ :
      Except HTTPException WeatherReading) =
      .ok ⟨.str "very cold", .num 7, "55.7588, 37.62817"⟩ := by
    rw [← hcon]
    rfl
  exact Except.noConfusion hcontra
